import Mathlib

/-!
Verification of the serf RPC client (src/client/rpc_client.go) against its
natural-language specification.

The Go code is shallowly embedded: the shared msgpack byte stream becomes a
list of typed records, Go channels become explicit buffer values, goroutine
interleavings at blocking selects become an explicit outcome parameter, and
the two mutexes (write lock, dispatch lock) become events in an emitted
trace, over which lock-discipline properties are stated.
-/

namespace Serf

/-- A Go error value: none models a nil error, some msg models an error whose
message is msg. -/
abbrev GoErr := Option String

/-- var clientClosed = fmt.Errorf("client closed") -/
def clientClosed : GoErr := some "client closed"

/-- strToError converts a string to an error if not blank
(rpc_client.go, strToError). -/
def strToError (s : String) : GoErr :=
  if s = "" then none else some s

/-- Modelled from the spec: the response envelope is (seq: uint64,
error: string) (spec section 6); the Go struct definition is not under src. -/
structure responseHeader where
  Seq : Nat
  Error : String
deriving Repr, DecidableEq

/-- Modelled from the spec: the request envelope is (command: string,
seq: uint64) (spec section 6); the Go struct definition is not under src. -/
structure requestHeader where
  Command : String
  Seq : Nat
deriving Repr, DecidableEq

/-- One decodable record on the shared inbound stream. The concrete msgpack
bytes are abstracted into typed records; garbage models bytes that fail to
decode as the requested type. -/
inductive Frame where
  | header (h : responseHeader)
  | logRec (lg : String)
  | eventRec (rec : List (String × String))
  | payload (p : Nat)
  | garbage
deriving Repr, DecidableEq

/-- Result of one typed decode from the stream (a call to dec.Decode):
blocked when no data is available yet, fail when the next record is not of
the requested type (the malformed record is consumed), ok otherwise. -/
inductive DecRes (α : Type) where
  | blocked
  | fail (rest : List Frame)
  | ok (a : α) (rest : List Frame)
deriving Repr, DecidableEq

/-- dec.Decode(&respHeader): decode a response envelope. -/
def decodeHeader : List Frame → DecRes responseHeader
  | [] => DecRes.blocked
  | Frame.header h :: rest => DecRes.ok h rest
  | _ :: rest => DecRes.fail rest

/-- dec.Decode(&rec) for a logRecord inside monitorHandler.Handle; the model
keeps only the Log field, which is all the handler forwards. -/
def decodeLog : List Frame → DecRes String
  | [] => DecRes.blocked
  | Frame.logRec lg :: rest => DecRes.ok lg rest
  | _ :: rest => DecRes.fail rest

/-- dec.Decode(&rec) for a map record inside streamHandler.Handle. -/
def decodeEvent : List Frame → DecRes (List (String × String))
  | [] => DecRes.blocked
  | Frame.eventRec r :: rest => DecRes.ok r rest
  | _ :: rest => DecRes.fail rest

/-- c.dec.Decode(resp) for the optional one-shot response payload inside
genericRPC's handler; the payload contents are abstract. -/
def decodePayload : List Frame → DecRes Nat
  | [] => DecRes.blocked
  | Frame.payload p :: rest => DecRes.ok p rest
  | _ :: rest => DecRes.fail rest

/-- The model of the decode error produced by the codec when the one-shot
response payload fails to decode. -/
def payloadDecodeFailMsg : String := "failed to decode response payload"

/-- A Go channel: a bounded buffer plus a closed flag. -/
structure Chan (α : Type) where
  cap : Nat
  buf : List α
  closed : Bool
deriving Repr, DecidableEq

/-- A (blocking) channel send, ch <- a; in the embedded protocol every
blocking send is into a 1-buffered channel with room, so it enqueues. -/
def Chan.send {α : Type} (c : Chan α) (a : α) : Chan α :=
  { c with buf := c.buf ++ [a] }

/-- A non-blocking send (select with default): enqueue when there is room,
otherwise report failure and leave the channel unchanged. -/
def Chan.trySend {α : Type} (c : Chan α) (a : α) : Chan α × Bool :=
  if c.buf.length < c.cap then ({ c with buf := c.buf ++ [a] }, true)
  else (c, false)

/-- close(ch). -/
def Chan.close {α : Type} (c : Chan α) : Chan α :=
  { c with closed := true }

/-- The closure registered by genericRPC: a seqCallback wrapping the handler
function. hasResp models resp != nil (a caller-supplied decode destination);
errCh is the 1-buffered completion channel the closure captures. -/
structure seqCallback where
  hasResp : Bool
  errCh : Chan GoErr
deriving Repr, DecidableEq

/-- monitorHandler (rpc_client.go): the field client *RPCClient is modelled
by passing the client's stream and log output into Handle explicitly. -/
structure monitorHandler where
  closed : Bool
  init : Bool
  initCh : Chan GoErr
  logCh : Chan String
  seq : Nat
deriving Repr, DecidableEq

/-- streamHandler (rpc_client.go), as for monitorHandler. -/
structure streamHandler where
  closed : Bool
  init : Bool
  initCh : Chan GoErr
  eventCh : Chan (List (String × String))
  seq : Nat
deriving Repr, DecidableEq

/-- The seqHandler interface with its three concrete implementations. -/
inductive seqHandler where
  | cb (h : seqCallback)
  | mon (h : monitorHandler)
  | str (h : streamHandler)
deriving Repr, DecidableEq

/-- monitorHandler.Cleanup. -/
def monitorHandler.Cleanup (mh : monitorHandler) : monitorHandler :=
  if mh.closed then mh
  else
    let mh1 :=
      if mh.init then mh
      else { mh with init := true,
                     initCh := mh.initCh.send (some "Stream closed") }
    { mh1 with logCh := mh1.logCh.close, closed := true }

/-- streamHandler.Cleanup. -/
def streamHandler.Cleanup (sh : streamHandler) : streamHandler :=
  if sh.closed then sh
  else
    let sh1 :=
      if sh.init then sh
      else { sh with init := true,
                     initCh := sh.initCh.send (some "Stream closed") }
    { sh1 with eventCh := sh1.eventCh.close, closed := true }

/-- monitorHandler.Handle: takes the response envelope, the shared stream
and the process log; returns the mutated handler, the remaining stream, the
log, and whether the handler deregistered itself (the decode-failure path
calls deregisterHandler(mh.seq), which removes it and runs its Cleanup). -/
def monitorHandler.Handle (mh : monitorHandler) (resp : responseHeader)
    (strm : List Frame) (logs : List String) :
    monitorHandler × List Frame × List String × Bool :=
  if mh.init = false then
    ({ mh with init := true,
               initCh := mh.initCh.send (strToError resp.Error) },
     strm, logs, false)
  else
    match decodeLog strm with
    | DecRes.blocked => (mh, strm, logs, false)
    | DecRes.fail rest =>
        (mh.Cleanup, rest, logs ++ ["[ERR] Failed to decode log"], true)
    | DecRes.ok lg rest =>
        match mh.logCh.trySend lg with
        | (ch, true) => ({ mh with logCh := ch }, rest, logs, false)
        | (ch, false) =>
            ({ mh with logCh := ch }, rest,
             logs ++ ["[ERR] Dropping log! Monitor channel full"], false)

/-- streamHandler.Handle, same shape as monitorHandler.Handle. -/
def streamHandler.Handle (sh : streamHandler) (resp : responseHeader)
    (strm : List Frame) (logs : List String) :
    streamHandler × List Frame × List String × Bool :=
  if sh.init = false then
    ({ sh with init := true,
               initCh := sh.initCh.send (strToError resp.Error) },
     strm, logs, false)
  else
    match decodeEvent strm with
    | DecRes.blocked => (sh, strm, logs, false)
    | DecRes.fail rest =>
        (sh.Cleanup, rest,
         logs ++ ["[ERR] Failed to decode stream record"], true)
    | DecRes.ok rec rest =>
        match sh.eventCh.trySend rec with
        | (ch, true) => ({ sh with eventCh := ch }, rest, logs, false)
        | (ch, false) =>
            ({ sh with eventCh := ch }, rest,
             logs ++ ["[ERR] Dropping event! Stream channel full"], false)

/-- The handler closure built inside genericRPC: if a response destination
was supplied, decode the payload first (a decode error wins); otherwise
push the converted envelope error onto the completion channel. -/
def seqCallback.Handle (cb : seqCallback) (resp : responseHeader)
    (strm : List Frame) : seqCallback × List Frame :=
  if cb.hasResp then
    match decodePayload strm with
    | DecRes.blocked => (cb, strm)
    | DecRes.fail rest =>
        ({ cb with errCh := cb.errCh.send (some payloadDecodeFailMsg) }, rest)
    | DecRes.ok _ rest =>
        ({ cb with errCh := cb.errCh.send (strToError resp.Error) }, rest)
  else
    ({ cb with errCh := cb.errCh.send (strToError resp.Error) }, strm)

/-- Dynamic dispatch of seqHandler.Handle over the three implementations. -/
def seqHandler.Handle (h : seqHandler) (resp : responseHeader)
    (strm : List Frame) (logs : List String) :
    seqHandler × List Frame × List String × Bool :=
  match h with
  | seqHandler.cb hc =>
      let r := hc.Handle resp strm
      (seqHandler.cb r.1, r.2, logs, false)
  | seqHandler.mon hm =>
      let r := hm.Handle resp strm logs
      (seqHandler.mon r.1, r.2.1, r.2.2.1, r.2.2.2)
  | seqHandler.str hs =>
      let r := hs.Handle resp strm logs
      (seqHandler.str r.1, r.2.1, r.2.2.1, r.2.2.2)

/-- The seq a streaming handler deregisters itself under (mh.seq / sh.seq);
a seqCallback never self-deregisters, so its value is never consulted. -/
def seqHandler.ownSeq : seqHandler → Nat
  | seqHandler.cb _ => 0
  | seqHandler.mon mh => mh.seq
  | seqHandler.str sh => sh.seq

/-- Lookup in the dispatch map, modelled as an association list. -/
def mlookup : List (Nat × seqHandler) → Nat → Option seqHandler
  | [], _ => none
  | p :: tl, k => if p.1 = k then some p.2 else mlookup tl k

/-- delete(dispatch, k). -/
def merase : List (Nat × seqHandler) → Nat → List (Nat × seqHandler)
  | [], _ => []
  | p :: tl, k => if p.1 = k then merase tl k else p :: merase tl k

/-- dispatch[k] = v (insert or replace). -/
def minsert (m : List (Nat × seqHandler)) (k : Nat) (v : seqHandler) :
    List (Nat × seqHandler) :=
  (k, v) :: merase m k

/-- Events emitted by the dispatch-table operations: acquiring and releasing
dispatchLock, the O(1) map operations, handler invocations, and sends on the
wire. Lock-discipline and ordering properties are stated over these. -/
inductive Ev where
  | lockAcq
  | lockRel
  | mapIns (s : Nat)
  | mapDel (s : Nat)
  | mapGet (s : Nat)
  | mapClr
  | cleanupEv (s : Nat)
  | handleEv (s : Nat)
  | sendEv (cmd : String) (s : Nat)
deriving Repr, DecidableEq

/-- Scans a trace with the current dispatch-lock depth; true when some
handler invocation (Handle or Cleanup) occurs while the lock is held. -/
def underLock : Nat → List Ev → Bool
  | _, [] => false
  | d, Ev.lockAcq :: tl => underLock (d + 1) tl
  | d, Ev.lockRel :: tl => underLock (d - 1) tl
  | d, Ev.cleanupEv _ :: tl => (d != 0) || underLock d tl
  | d, Ev.handleEv _ :: tl => (d != 0) || underLock d tl
  | d, _ :: tl => underLock d tl

/-- True when a handler invocation happens inside the dispatch lock. -/
def invokesUnderLock (tr : List Ev) : Bool := underLock 0 tr

/-- True when a send for seq s occurs in the trace before the registration
of seq s (false means: either s is registered before any send of s, or s is
never sent). -/
def sendBeforeReg (s : Nat) : List Ev → Bool
  | [] => false
  | Ev.sendEv _ s0 :: tl => if s0 = s then true else sendBeforeReg s tl
  | Ev.mapIns s0 :: tl => if s0 = s then false else sendBeforeReg s tl
  | _ :: tl => sendBeforeReg s tl

/-- True when any send occurs in the trace before the removal of seq s. -/
def sendBeforeDel (s : Nat) : List Ev → Bool
  | [] => false
  | Ev.sendEv _ _ :: _ => true
  | Ev.mapDel s0 :: tl => if s0 = s then false else sendBeforeDel s tl
  | _ :: tl => sendBeforeDel s tl

/-- 2 to the 64: uint64 arithmetic wraps at this modulus. -/
def U64 : Nat := 2 ^ 64

/-- RPCClient. The TCP connection, buffered reader/writer and codec handles
are modelled by: strm (the inbound stream of decodable records shared by the
listener and all handlers), sendErr (the transport write path's pending
error, none when writes succeed), and connClosed (conn.Close was called).
shutdownChClosed models close(shutdownCh); logs collects log.Printf output;
the two mutexes appear as events in the operation traces. -/
structure RPCClient where
  seq : Nat
  strm : List Frame
  sendErr : GoErr
  dispatch : List (Nat × seqHandler)
  shutdown : Bool
  shutdownChClosed : Bool
  connClosed : Bool
  logs : List String
deriving Repr, DecidableEq

/-- getSeq returns the next sequence number in a safe manner
(atomic.AddUint64, wrapping as a uint64). -/
def RPCClient.getSeq (c : RPCClient) : Nat × RPCClient :=
  let s := (c.seq + 1) % U64
  (s, { c with seq := s })

/-- send: under the write lock, fail with clientClosed when already shut
down, otherwise encode the header (and payload) and flush; a transport
write failure is modelled by sendErr. -/
def RPCClient.send (c : RPCClient) (hdr : requestHeader) :
    GoErr × RPCClient × List Ev :=
  if c.shutdown then (clientClosed, c, [])
  else
    match c.sendErr with
    | some e => (some e, c, [])
    | none => (none, c, [Ev.sendEv hdr.Command hdr.Seq])

/-- handleSeq: register a handler for a sequence number under dispatchLock. -/
def RPCClient.handleSeq (c : RPCClient) (s : Nat) (h : seqHandler) :
    RPCClient × List Ev :=
  ({ c with dispatch := minsert c.dispatch s h },
   [Ev.lockAcq, Ev.mapIns s, Ev.lockRel])

/-- deregisterHandler: under dispatchLock look up and delete the entry,
release the lock, then run Cleanup outside the lock when one was found. -/
def RPCClient.deregisterHandler (c : RPCClient) (s : Nat) :
    RPCClient × List Ev :=
  ({ c with dispatch := merase c.dispatch s },
   match mlookup c.dispatch s with
   | some _ => [Ev.lockAcq, Ev.mapDel s, Ev.lockRel, Ev.cleanupEv s]
   | none => [Ev.lockAcq, Ev.mapDel s, Ev.lockRel])

/-- deregisterAll: under dispatchLock run every remaining handler's Cleanup
and then clear the map, releasing the lock only afterwards (the deferred
unlock runs after the loop). -/
def RPCClient.deregisterAll (c : RPCClient) : RPCClient × List Ev :=
  ({ c with dispatch := [] },
   [Ev.lockAcq] ++ c.dispatch.map (fun p => Ev.cleanupEv p.1)
     ++ [Ev.mapClr, Ev.lockRel])

/-- Close: idempotently set the shutdown flag, close the shutdown channel,
deregister every handler and close the connection. -/
def RPCClient.Close (c : RPCClient) : RPCClient × GoErr × List Ev :=
  if c.shutdown then (c, none, [])
  else
    let c1 := { c with shutdown := true, shutdownChClosed := true }
    let r := c1.deregisterAll
    ({ r.1 with connClosed := true }, none, r.2)

/-- respondSeq: look up the handler under dispatchLock, release the lock,
then invoke Handle outside it; with no registered handler the message is
ignored. Mutation through the handler pointer is modelled by writing the
returned handler back, and a self-deregistration inside Handle removes the
handler's own seq. -/
def RPCClient.respondSeq (c : RPCClient) (resp : responseHeader) :
    RPCClient × List Ev :=
  match mlookup c.dispatch resp.Seq with
  | none => (c, [Ev.lockAcq, Ev.mapGet resp.Seq, Ev.lockRel])
  | some h =>
      let r := h.Handle resp c.strm c.logs
      let d1 := minsert c.dispatch resp.Seq r.1
      let d2 := if r.2.2.2 then merase d1 r.1.ownSeq else d1
      ({ c with dispatch := d2, strm := r.2.1, logs := r.2.2.1 },
       [Ev.lockAcq, Ev.mapGet resp.Seq, Ev.lockRel, Ev.handleEv resp.Seq])

/-- listen: decode response envelopes and route them by seq until the
decoder fails (break, then the deferred Close) or no input remains (the
reader blocks). The fuel bounds how many envelopes this run processes. -/
def RPCClient.listen : Nat → RPCClient → RPCClient
  | 0, c => c
  | fuel + 1, c =>
      match decodeHeader c.strm with
      | DecRes.blocked => c
      | DecRes.fail rest =>
          let lgs :=
            if c.shutdown then c.logs
            else c.logs ++ ["[ERR] agent.client: Failed to decode response header"]
          (RPCClient.Close { c with strm := rest, logs := lgs }).1
      | DecRes.ok hdr rest =>
          RPCClient.listen fuel
            (RPCClient.respondSeq { c with strm := rest } hdr).1

/-- The resolution of the blocking select in genericRPC, Monitor and
Stream: either the completion/init channel yields an error value, or the
shutdown broadcast channel fires first. -/
inductive RPCOutcome where
  | recv (e : GoErr)
  | shutdownFired
deriving Repr, DecidableEq

/-- genericRPC: register a fresh seqCallback with a 1-buffered completion
channel, send the request, block on completion versus shutdown, and
deregister the handler on every exit path (the deferred deregister). The
request payload (req) carries no behaviour and is omitted. -/
def RPCClient.genericRPC (c : RPCClient) (hdr : requestHeader)
    (hasResp : Bool) (outcome : RPCOutcome) : GoErr × RPCClient × List Ev :=
  let handler : seqHandler :=
    seqHandler.cb { hasResp := hasResp,
                    errCh := { cap := 1, buf := [], closed := false } }
  let r1 := c.handleSeq hdr.Seq handler
  let r2 := r1.1.send hdr
  match r2.1 with
  | some e =>
      let r3 := r2.2.1.deregisterHandler hdr.Seq
      (some e, r3.1, r1.2 ++ r2.2.2 ++ r3.2)
  | none =>
      let res :=
        match outcome with
        | RPCOutcome.recv e => e
        | RPCOutcome.shutdownFired => clientClosed
      let r3 := r2.2.1.deregisterHandler hdr.Seq
      (res, r3.1, r1.2 ++ r2.2.2 ++ r3.2)

/-- Modelled from the spec: the wire command name for the handshake
(spec section 6); the Go constants file is not under src. -/
def handshakeCommand : String := "handshake"

/-- Modelled from the spec: the force-leave command name. -/
def forceLeaveCommand : String := "forceLeave"

/-- Modelled from the spec: the join command name. -/
def joinCommand : String := "join"

/-- Modelled from the spec: the members command name. -/
def membersCommand : String := "members"

/-- Modelled from the spec: the filtered members command name. -/
def membersFilteredCommand : String := "membersFiltered"

/-- Modelled from the spec: the user event command name. -/
def eventCommand : String := "event"

/-- Modelled from the spec: the leave command name. -/
def leaveCommand : String := "leave"

/-- Modelled from the spec: the tags command name. -/
def tagsCommand : String := "tags"

/-- Modelled from the spec: the monitor command name. -/
def monitorCommand : String := "monitor"

/-- Modelled from the spec: the stream command name. -/
def streamCommand : String := "stream"

/-- Modelled from the spec: the stop command name. -/
def stopCommand : String := "stop"

/-- Modelled from the spec: the highest IPC protocol version the client
supports, sent in the handshake request. -/
def maxIPCVersion : Nat := 1

/-- ForceLeave. -/
def RPCClient.ForceLeave (c : RPCClient) (node : String) (o : RPCOutcome) :
    GoErr × RPCClient × List Ev :=
  let r := c.getSeq
  r.2.genericRPC { Command := forceLeaveCommand, Seq := r.1 } false o

/-- Join; the decoded joinResponse payload is abstract, so only the error
result and state are modelled. -/
def RPCClient.Join (c : RPCClient) (addrs : List String) (replay : Bool)
    (o : RPCOutcome) : GoErr × RPCClient × List Ev :=
  let r := c.getSeq
  r.2.genericRPC { Command := joinCommand, Seq := r.1 } true o

/-- Members. -/
def RPCClient.Members (c : RPCClient) (o : RPCOutcome) :
    GoErr × RPCClient × List Ev :=
  let r := c.getSeq
  r.2.genericRPC { Command := membersCommand, Seq := r.1 } true o

/-- MembersFiltered. -/
def RPCClient.MembersFiltered (c : RPCClient)
    (tags : List (String × String)) (status : String) (o : RPCOutcome) :
    GoErr × RPCClient × List Ev :=
  let r := c.getSeq
  r.2.genericRPC { Command := membersFilteredCommand, Seq := r.1 } true o

/-- UserEvent. -/
def RPCClient.UserEvent (c : RPCClient) (name : String)
    (payload : List Nat) (coalesce : Bool) (o : RPCOutcome) :
    GoErr × RPCClient × List Ev :=
  let r := c.getSeq
  r.2.genericRPC { Command := eventCommand, Seq := r.1 } false o

/-- Leave. -/
def RPCClient.Leave (c : RPCClient) (o : RPCOutcome) :
    GoErr × RPCClient × List Ev :=
  let r := c.getSeq
  r.2.genericRPC { Command := leaveCommand, Seq := r.1 } false o

/-- UpdateTags. -/
def RPCClient.UpdateTags (c : RPCClient) (tags : List (String × String))
    (delTags : List String) (o : RPCOutcome) :
    GoErr × RPCClient × List Ev :=
  let r := c.getSeq
  r.2.genericRPC { Command := tagsCommand, Seq := r.1 } false o

/-- handshake. -/
def RPCClient.handshake (c : RPCClient) (o : RPCOutcome) :
    GoErr × RPCClient × List Ev :=
  let r := c.getSeq
  r.2.genericRPC { Command := handshakeCommand, Seq := r.1 } false o

/-- Stop: deregister locally first to stop delivery, then send the stop
command as a one-shot RPC under a freshly allocated seq. -/
def RPCClient.Stop (c : RPCClient) (handle : Nat) (o : RPCOutcome) :
    GoErr × RPCClient × List Ev :=
  let r1 := c.deregisterHandler handle
  let r2 := r1.1.getSeq
  let r3 := r2.2.genericRPC { Command := stopCommand, Seq := r2.1 } false o
  (r3.1, r3.2.1, r1.2 ++ r3.2.2)

/-- Monitor: allocate a seq, register a monitorHandler with a 1-buffered
init channel and the caller's delivery channel, send the subscribe request
(deregistering and returning handle 0 on failure), then block on the init
signal versus shutdown (deregistering and returning handle 0 with
clientClosed when shutdown wins). -/
def RPCClient.Monitor (c : RPCClient) (level : String)
    (ch : Chan String) (o : RPCOutcome) :
    (Nat × GoErr) × RPCClient × List Ev :=
  let r0 := c.getSeq
  let handler : seqHandler :=
    seqHandler.mon { closed := false, init := false,
                     initCh := { cap := 1, buf := [], closed := false },
                     logCh := ch, seq := r0.1 }
  let r1 := r0.2.handleSeq r0.1 handler
  let r2 := r1.1.send { Command := monitorCommand, Seq := r0.1 }
  match r2.1 with
  | some e =>
      let r3 := r2.2.1.deregisterHandler r0.1
      ((0, some e), r3.1, r1.2 ++ r2.2.2 ++ r3.2)
  | none =>
      match o with
      | RPCOutcome.recv e => ((r0.1, e), r2.2.1, r1.2 ++ r2.2.2)
      | RPCOutcome.shutdownFired =>
          let r3 := r2.2.1.deregisterHandler r0.1
          ((0, clientClosed), r3.1, r1.2 ++ r2.2.2 ++ r3.2)

/-- Stream: as Monitor, with a streamHandler and an event filter. -/
def RPCClient.Stream (c : RPCClient) (filter : String)
    (ch : Chan (List (String × String))) (o : RPCOutcome) :
    (Nat × GoErr) × RPCClient × List Ev :=
  let r0 := c.getSeq
  let handler : seqHandler :=
    seqHandler.str { closed := false, init := false,
                     initCh := { cap := 1, buf := [], closed := false },
                     eventCh := ch, seq := r0.1 }
  let r1 := r0.2.handleSeq r0.1 handler
  let r2 := r1.1.send { Command := streamCommand, Seq := r0.1 }
  match r2.1 with
  | some e =>
      let r3 := r2.2.1.deregisterHandler r0.1
      ((0, some e), r3.1, r1.2 ++ r2.2.2 ++ r3.2)
  | none =>
      match o with
      | RPCOutcome.recv e => ((r0.1, e), r2.2.1, r1.2 ++ r2.2.2)
      | RPCOutcome.shutdownFired =>
          let r3 := r2.2.1.deregisterHandler r0.1
          ((0, clientClosed), r3.1, r1.2 ++ r2.2.2 ++ r3.2)

/-- The client state NewRPCClient builds after a successful dial, before
the handshake: zero seq counter, empty dispatch map, open connection. -/
def newClient (strm : List Frame) (sendErr : GoErr) : RPCClient :=
  { seq := 0, strm := strm, sendErr := sendErr, dispatch := [],
    shutdown := false, shutdownChClosed := false, connClosed := false,
    logs := [] }

/-- NewRPCClient after a successful dial: build the client, start the
listener, run the handshake; on handshake failure Close the client and
return no client together with the error. The returned triple is (the
caller-visible client, the returned error, the underlying client state,
kept so the connection state remains observable on the failure path). -/
def NewRPCClient (strm : List Frame) (sendErr : GoErr) (o : RPCOutcome) :
    Option RPCClient × GoErr × RPCClient :=
  let c := newClient strm sendErr
  let r := c.handshake o
  match r.1 with
  | some e => (none, some e, (r.2.1.Close).1)
  | none => (some r.2.1, none, r.2.1)

theorem mlookup_merase_self (m : List (Nat × seqHandler)) (k : Nat) :
    mlookup (merase m k) k = none := by
  induction m with
  | nil => rfl
  | cons p tl ih =>
      by_cases h : p.1 = k
      · simp [merase, h, ih]
      · simp [merase, mlookup, h, ih]

theorem mlookup_merase_ne (m : List (Nat × seqHandler)) (k k' : Nat)
    (h : k' ≠ k) : mlookup (merase m k) k' = mlookup m k' := by
  have hk : k ≠ k' := fun hh => h hh.symm
  induction m with
  | nil => rfl
  | cons p tl ih =>
      by_cases hp : p.1 = k
      · have hpk : p.1 ≠ k' := by
          rw [hp]; exact hk
        simp [merase, hp, mlookup, hpk, ih, hk]
      · by_cases hq : p.1 = k'
        · simp [merase, hp, mlookup, hq, h, ih]
        · simp [merase, hp, mlookup, hq, ih]

theorem mlookup_minsert_self (m : List (Nat × seqHandler)) (k : Nat)
    (v : seqHandler) : mlookup (minsert m k v) k = some v := by
  simp [minsert, mlookup]

theorem mlookup_minsert_ne (m : List (Nat × seqHandler)) (k k' : Nat)
    (v : seqHandler) (h : k' ≠ k) :
    mlookup (minsert m k v) k' = mlookup m k' := by
  have hk : k ≠ k' := fun hh => h hh.symm
  simp [minsert, mlookup, hk, mlookup_merase_ne m k k' h]

theorem merase_of_mlookup_none (m : List (Nat × seqHandler)) (k : Nat)
    (h : mlookup m k = none) : merase m k = m := by
  induction m with
  | nil => rfl
  | cons p tl ih =>
      by_cases hp : p.1 = k
      · simp [mlookup, hp] at h
      · simp [mlookup, hp] at h
        simp [merase, hp, ih h]

theorem monitorCleanup_seq (mh : monitorHandler) :
    mh.Cleanup.seq = mh.seq := by
  cases hc : mh.closed <;> cases hi : mh.init <;>
    simp [monitorHandler.Cleanup, hc, hi]

theorem streamCleanup_seq (sh : streamHandler) :
    sh.Cleanup.seq = sh.seq := by
  cases hc : sh.closed <;> cases hi : sh.init <;>
    simp [streamHandler.Cleanup, hc, hi]

/-- C5: for both streaming handlers, the first Handle invocation converts
the setup error string and pushes it onto the init channel, marking the
handler initialized; every later invocation decodes exactly one payload
record and does a non-blocking send into the delivery channel, delivering
when there is room and otherwise dropping the record with only a logged
warning — the handler returns either way, does not self-deregister, and
never touches the init channel again; and the init channel Monitor
registers its handler with is 1-buffered. -/
theorem C5_theorem :
    (∀ (mh : monitorHandler) (resp : responseHeader) (strm : List Frame)
       (logs : List String),
      mh.init = false →
      mh.Handle resp strm logs =
        ({ mh with init := true,
                   initCh := mh.initCh.send (strToError resp.Error) },
         strm, logs, false)) ∧
    (∀ (mh : monitorHandler) (resp : responseHeader) (strm : List Frame)
       (logs : List String) (lg : String) (rest : List Frame),
      mh.init = true → decodeLog strm = DecRes.ok lg rest →
      mh.logCh.buf.length < mh.logCh.cap →
      mh.Handle resp strm logs =
        ({ mh with logCh := mh.logCh.send lg }, rest, logs, false)) ∧
    (∀ (mh : monitorHandler) (resp : responseHeader) (strm : List Frame)
       (logs : List String) (lg : String) (rest : List Frame),
      mh.init = true → decodeLog strm = DecRes.ok lg rest →
      ¬ mh.logCh.buf.length < mh.logCh.cap →
      mh.Handle resp strm logs =
        (mh, rest, logs ++ ["[ERR] Dropping log! Monitor channel full"],
         false)) ∧
    (∀ (sh : streamHandler) (resp : responseHeader) (strm : List Frame)
       (logs : List String),
      sh.init = false →
      sh.Handle resp strm logs =
        ({ sh with init := true,
                   initCh := sh.initCh.send (strToError resp.Error) },
         strm, logs, false)) ∧
    (∀ (sh : streamHandler) (resp : responseHeader) (strm : List Frame)
       (logs : List String) (rec : List (String × String))
       (rest : List Frame),
      sh.init = true → decodeEvent strm = DecRes.ok rec rest →
      sh.eventCh.buf.length < sh.eventCh.cap →
      sh.Handle resp strm logs =
        ({ sh with eventCh := sh.eventCh.send rec }, rest, logs, false)) ∧
    (∀ (sh : streamHandler) (resp : responseHeader) (strm : List Frame)
       (logs : List String) (rec : List (String × String))
       (rest : List Frame),
      sh.init = true → decodeEvent strm = DecRes.ok rec rest →
      ¬ sh.eventCh.buf.length < sh.eventCh.cap →
      sh.Handle resp strm logs =
        (sh, rest, logs ++ ["[ERR] Dropping event! Stream channel full"],
         false)) ∧
    (∀ (c : RPCClient) (level : String) (ch : Chan String) (e : GoErr),
      c.shutdown = false → c.sendErr = none →
      mlookup (c.Monitor level ch (RPCOutcome.recv e)).2.1.dispatch
          ((c.seq + 1) % U64) =
        some (seqHandler.mon
          { closed := false, init := false,
            initCh := { cap := 1, buf := [], closed := false },
            logCh := ch, seq := (c.seq + 1) % U64 })) := by
  refine ⟨?_, ?_, ?_, ?_, ?_, ?_, ?_⟩
  · intro mh resp strm logs h
    simp [monitorHandler.Handle, h]
  · intro mh resp strm logs lg rest h1 h2 h3
    simp [monitorHandler.Handle, h1, h2, Chan.trySend, h3, Chan.send]
  · intro mh resp strm logs lg rest h1 h2 h3
    have hts : mh.logCh.trySend lg = (mh.logCh, false) := by
      simp [Chan.trySend, h3]
    have hni : ¬ (mh.init = false) := by simp [h1]
    simp only [monitorHandler.Handle, if_neg hni, h2, hts]
  · intro sh resp strm logs h
    simp [streamHandler.Handle, h]
  · intro sh resp strm logs rec rest h1 h2 h3
    simp [streamHandler.Handle, h1, h2, Chan.trySend, h3, Chan.send]
  · intro sh resp strm logs rec rest h1 h2 h3
    have hts : sh.eventCh.trySend rec = (sh.eventCh, false) := by
      simp [Chan.trySend, h3]
    have hni : ¬ (sh.init = false) := by simp [h1]
    simp only [streamHandler.Handle, if_neg hni, h2, hts]
  · intro c level ch e h1 h2
    simp [RPCClient.Monitor, RPCClient.getSeq, RPCClient.handleSeq,
          RPCClient.send, h1, h2, mlookup_minsert_self]

/-- C5 witness: the theorem instantiated at concrete handlers: a first
invocation, a delivered record, a dropped record on a full channel, and a
concrete Monitor subscription. -/
theorem C5_witness :
    (monitorHandler.Handle
      { closed := false, init := false,
        initCh := { cap := 1, buf := [], closed := false },
        logCh := { cap := 1, buf := [], closed := false }, seq := 4 }
      { Seq := 4, Error := "" } [] [] =
      ({ closed := false, init := true,
         initCh := Chan.send { cap := 1, buf := [], closed := false }
           (strToError ""),
         logCh := { cap := 1, buf := [], closed := false }, seq := 4 },
       [], [], false)) ∧
    (monitorHandler.Handle
      { closed := false, init := true,
        initCh := { cap := 1, buf := [], closed := false },
        logCh := { cap := 1, buf := [], closed := false }, seq := 4 }
      { Seq := 4, Error := "" } [Frame.logRec "hello"] [] =
      ({ closed := false, init := true,
         initCh := { cap := 1, buf := [], closed := false },
         logCh := Chan.send { cap := 1, buf := [], closed := false } "hello",
         seq := 4 }, [], [], false)) ∧
    (monitorHandler.Handle
      { closed := false, init := true,
        initCh := { cap := 1, buf := [], closed := false },
        logCh := { cap := 1, buf := ["full"], closed := false }, seq := 4 }
      { Seq := 4, Error := "" } [Frame.logRec "hello"] [] =
      ({ closed := false, init := true,
         initCh := { cap := 1, buf := [], closed := false },
         logCh := { cap := 1, buf := ["full"], closed := false }, seq := 4 },
       [], ["[ERR] Dropping log! Monitor channel full"], false)) ∧
    (streamHandler.Handle
      { closed := false, init := false,
        initCh := { cap := 1, buf := [], closed := false },
        eventCh := { cap := 1, buf := [], closed := false }, seq := 6 }
      { Seq := 6, Error := "denied" } [] [] =
      ({ closed := false, init := true,
         initCh := Chan.send { cap := 1, buf := [], closed := false }
           (strToError "denied"),
         eventCh := { cap := 1, buf := [], closed := false }, seq := 6 },
       [], [], false)) ∧
    (streamHandler.Handle
      { closed := false, init := true,
        initCh := { cap := 1, buf := [], closed := false },
        eventCh := { cap := 1, buf := [], closed := false }, seq := 6 }
      { Seq := 6, Error := "" } [Frame.eventRec [("Event", "join")]] [] =
      ({ closed := false, init := true,
         initCh := { cap := 1, buf := [], closed := false },
         eventCh := Chan.send { cap := 1, buf := [], closed := false }
           [("Event", "join")], seq := 6 }, [], [], false)) ∧
    (streamHandler.Handle
      { closed := false, init := true,
        initCh := { cap := 1, buf := [], closed := false },
        eventCh := { cap := 1, buf := [[]], closed := false }, seq := 6 }
      { Seq := 6, Error := "" } [Frame.eventRec [("Event", "join")]] [] =
      ({ closed := false, init := true,
         initCh := { cap := 1, buf := [], closed := false },
         eventCh := { cap := 1, buf := [[]], closed := false }, seq := 6 },
       [], ["[ERR] Dropping event! Stream channel full"], false)) ∧
    (mlookup ((newClient [] none).Monitor "DEBUG"
        { cap := 2, buf := [], closed := false }
        (RPCOutcome.recv none)).2.1.dispatch ((0 + 1) % U64) =
      some (seqHandler.mon
        { closed := false, init := false,
          initCh := { cap := 1, buf := [], closed := false },
          logCh := { cap := 2, buf := [], closed := false },
          seq := (0 + 1) % U64 })) :=
  ⟨C5_theorem.1 _ _ [] [] rfl,
   C5_theorem.2.1 _ _ _ [] "hello" [] rfl rfl (by decide),
   C5_theorem.2.2.1 _ _ _ [] "hello" [] rfl rfl (by decide),
   C5_theorem.2.2.2.1 _ _ [] [] rfl,
   C5_theorem.2.2.2.2.1 _ _ _ [] [("Event", "join")] [] rfl rfl (by decide),
   C5_theorem.2.2.2.2.2.1 _ _ _ [] [("Event", "join")] [] rfl rfl
     (by decide),
   C5_theorem.2.2.2.2.2.2 (newClient [] none) "DEBUG"
     { cap := 2, buf := [], closed := false } none rfl rfl⟩

/-- C6: Cleanup on a streaming handler is idempotent: on a not-yet-closed
handler it transitions to closed and closes the delivery channel, pushing a
"Stream closed" failure onto the init channel exactly when setup never
completed; running Cleanup again leaves the handler unchanged. -/
theorem C6_theorem :
    (∀ mh : monitorHandler, mh.closed = false →
      mh.Cleanup.closed = true ∧
      mh.Cleanup.logCh.closed = true ∧
      (mh.init = false →
        mh.Cleanup.initCh = mh.initCh.send (some "Stream closed")) ∧
      (mh.init = true → mh.Cleanup.initCh = mh.initCh)) ∧
    (∀ mh : monitorHandler, mh.Cleanup.Cleanup = mh.Cleanup) ∧
    (∀ sh : streamHandler, sh.closed = false →
      sh.Cleanup.closed = true ∧
      sh.Cleanup.eventCh.closed = true ∧
      (sh.init = false →
        sh.Cleanup.initCh = sh.initCh.send (some "Stream closed")) ∧
      (sh.init = true → sh.Cleanup.initCh = sh.initCh)) ∧
    (∀ sh : streamHandler, sh.Cleanup.Cleanup = sh.Cleanup) := by
  refine ⟨?_, ?_, ?_, ?_⟩
  · intro mh hc
    cases hi : mh.init <;>
      simp [monitorHandler.Cleanup, hc, hi, Chan.close]
  · intro mh
    cases hc : mh.closed <;> cases hi : mh.init <;>
      simp [monitorHandler.Cleanup, hc, hi, Chan.close]
  · intro sh hc
    cases hi : sh.init <;>
      simp [streamHandler.Cleanup, hc, hi, Chan.close]
  · intro sh
    cases hc : sh.closed <;> cases hi : sh.init <;>
      simp [streamHandler.Cleanup, hc, hi, Chan.close]

/-- C6 witness: Cleanup instantiated on a concrete uninitialized monitor
handler and a concrete initialized stream handler. -/
theorem C6_witness :
    (monitorHandler.Cleanup
      { closed := false, init := false,
        initCh := { cap := 1, buf := [], closed := false },
        logCh := { cap := 3, buf := [], closed := false },
        seq := 5 }).closed = true ∧
    (monitorHandler.Cleanup
      { closed := false, init := false,
        initCh := { cap := 1, buf := [], closed := false },
        logCh := { cap := 3, buf := [], closed := false },
        seq := 5 }).initCh =
      Chan.send { cap := 1, buf := [], closed := false }
        (some "Stream closed") ∧
    (streamHandler.Cleanup
      { closed := false, init := true,
        initCh := { cap := 1, buf := [none], closed := false },
        eventCh := { cap := 3, buf := [], closed := false },
        seq := 8 }).initCh = { cap := 1, buf := [none], closed := false } :=
  ⟨(C6_theorem.1 _ rfl).1,
   (C6_theorem.1
     { closed := false, init := false,
       initCh := { cap := 1, buf := [], closed := false },
       logCh := { cap := 3, buf := [], closed := false },
       seq := 5 } rfl).2.2.1 rfl,
   (C6_theorem.2.2.1
     { closed := false, init := true,
       initCh := { cap := 1, buf := [none], closed := false },
       eventCh := { cap := 3, buf := [], closed := false },
       seq := 8 } rfl).2.2.2 rfl⟩

/-- C7: a one-shot RPC whose response arrives fails exactly when the
envelope's error string is non-empty (or the optional payload decode
fails): strToError maps the empty string to success and any other string to
a failure carrying that string verbatim; the handler pushes exactly that
conversion onto the completion channel both without a response destination
and after a successful payload decode; and genericRPC returns whatever the
completion channel yielded. -/
theorem C7_theorem :
    (∀ s : String, strToError s = none ↔ s = "") ∧
    (∀ s : String, s ≠ "" → strToError s = some s) ∧
    (∀ (hc : seqCallback) (resp : responseHeader) (strm : List Frame),
      hc.hasResp = false →
      hc.Handle resp strm =
        ({ hc with errCh := hc.errCh.send (strToError resp.Error) }, strm)) ∧
    (∀ (hc : seqCallback) (resp : responseHeader) (strm : List Frame)
       (p : Nat) (rest : List Frame),
      hc.hasResp = true → decodePayload strm = DecRes.ok p rest →
      hc.Handle resp strm =
        ({ hc with errCh := hc.errCh.send (strToError resp.Error) }, rest)) ∧
    (∀ (c : RPCClient) (hdr : requestHeader) (hr : Bool) (e : GoErr),
      c.shutdown = false → c.sendErr = none →
      (c.genericRPC hdr hr (RPCOutcome.recv e)).1 = e) := by
  refine ⟨?_, ?_, ?_, ?_, ?_⟩
  · intro s
    constructor
    · intro h
      by_contra hne
      simp [strToError, hne] at h
    · intro h
      simp [strToError, h]
  · intro s h
    simp [strToError, h]
  · intro hc resp strm h
    simp [seqCallback.Handle, h]
  · intro hc resp strm p rest h1 h2
    simp [seqCallback.Handle, h1, h2]
  · intro c hdr hr e h1 h2
    simp [RPCClient.genericRPC, RPCClient.handleSeq, RPCClient.send,
          RPCClient.deregisterHandler, h1, h2]

/-- C7 witness: the conversion and handler behaviour at concrete inputs:
an empty error string yields success, a non-empty one yields the verbatim
failure, and a concrete genericRPC call returns the received value. -/
theorem C7_witness :
    (strToError "" = none ↔ ("" : String) = "") ∧
    (strToError "node unknown" = some "node unknown") ∧
    (seqCallback.Handle
      { hasResp := false, errCh := { cap := 1, buf := [], closed := false } }
      { Seq := 3, Error := "node unknown" } [] =
      ({ hasResp := false,
         errCh := Chan.send { cap := 1, buf := [], closed := false }
           (strToError "node unknown") }, [])) ∧
    (seqCallback.Handle
      { hasResp := true, errCh := { cap := 1, buf := [], closed := false } }
      { Seq := 3, Error := "" } [Frame.payload 7] =
      ({ hasResp := true,
         errCh := Chan.send { cap := 1, buf := [], closed := false }
           (strToError "") }, [])) ∧
    ((newClient [] none).genericRPC { Command := joinCommand, Seq := 1 }
        true (RPCOutcome.recv (some "join failed"))).1 =
      some "join failed" :=
  ⟨C7_theorem.1 "",
   C7_theorem.2.1 "node unknown" (by decide),
   C7_theorem.2.2.1 _ _ [] rfl,
   C7_theorem.2.2.2.1 _ _ _ 7 [] rfl rfl,
   C7_theorem.2.2.2.2 (newClient [] none) _ true (some "join failed")
     rfl rfl⟩

/-- C9: with a non-nil response destination the handler decodes the payload
before looking at the envelope's error string: when the payload decode
fails, the value pushed onto the completion channel is the decode error,
even though the envelope carried a non-empty error string — and that decode
error differs from the agent's error whenever the strings differ. -/
theorem C9_theorem :
    (∀ (hc : seqCallback) (resp : responseHeader) (strm : List Frame)
       (rest : List Frame),
      hc.hasResp = true → decodePayload strm = DecRes.fail rest →
      (hc.Handle resp strm).1.errCh.buf =
        hc.errCh.buf ++ [some payloadDecodeFailMsg]) ∧
    (∀ resp : responseHeader, resp.Error ≠ payloadDecodeFailMsg →
      some payloadDecodeFailMsg ≠ strToError resp.Error) := by
  refine ⟨?_, ?_⟩
  · intro hc resp strm rest h1 h2
    simp [seqCallback.Handle, h1, h2, Chan.send]
  · intro resp h
    by_cases he : resp.Error = ""
    · simp [strToError, he]
    · simp [strToError, he]
      exact fun hh => h hh.symm

/-- C9 witness: a concrete response whose envelope carries a non-empty
error string and whose payload fails to decode: the completion channel
receives the decode error, not the agent's message. -/
theorem C9_witness :
    (seqCallback.Handle
      { hasResp := true, errCh := { cap := 1, buf := [], closed := false } }
      { Seq := 3, Error := "agent side error" }
      [Frame.garbage]).1.errCh.buf =
      [] ++ [some payloadDecodeFailMsg] ∧
    some payloadDecodeFailMsg ≠ strToError "agent side error" :=
  ⟨C9_theorem.1 _ { Seq := 3, Error := "agent side error" } [Frame.garbage]
     [] rfl rfl,
   C9_theorem.2 { Seq := 3, Error := "agent side error" } (by decide)⟩

/-- C1 counterexample: the claim that every decode failure closes the
client is false. A concrete run: a monitor handler registered under seq 2
(already initialized), a well-formed envelope for seq 2 followed by an
undecodable payload record. The streaming Handle's payload decode fails
(the decode-error log line is emitted, the handler is deregistered), yet
after the listener processes the stream the client is not shut down and
the connection is still open. -/
theorem C1_counterexample :
    (RPCClient.listen 3
      { seq := 2,
        strm := [Frame.header { Seq := 2, Error := "" }, Frame.garbage],
        sendErr := none,
        dispatch := [(2, seqHandler.mon
          { closed := false, init := true,
            initCh := { cap := 1, buf := [], closed := false },
            logCh := { cap := 5, buf := [], closed := false },
            seq := 2 })],
        shutdown := false, shutdownChClosed := false, connClosed := false,
        logs := [] }).shutdown = false ∧
    (RPCClient.listen 3
      { seq := 2,
        strm := [Frame.header { Seq := 2, Error := "" }, Frame.garbage],
        sendErr := none,
        dispatch := [(2, seqHandler.mon
          { closed := false, init := true,
            initCh := { cap := 1, buf := [], closed := false },
            logCh := { cap := 5, buf := [], closed := false },
            seq := 2 })],
        shutdown := false, shutdownChClosed := false, connClosed := false,
        logs := [] }).connClosed = false ∧
    (RPCClient.listen 3
      { seq := 2,
        strm := [Frame.header { Seq := 2, Error := "" }, Frame.garbage],
        sendErr := none,
        dispatch := [(2, seqHandler.mon
          { closed := false, init := true,
            initCh := { cap := 1, buf := [], closed := false },
            logCh := { cap := 5, buf := [], closed := false },
            seq := 2 })],
        shutdown := false, shutdownChClosed := false, connClosed := false,
        logs := [] }).logs = ["[ERR] Failed to decode log"] := by
  decide

/-- C1 (amended): a decode failure of the response-envelope header in the
Listener Loop is fatal — the loop aborts and triggers full client shutdown,
after which no further operation succeeds (every one-shot RPC returns the
client-closed failure); by contrast, a payload decode failure inside a
streaming Handle — monitor and event stream alike — deregisters only that
handler and leaves the client running, and a one-shot response payload
decode failure inside genericRPC's handler is surfaced only to that caller
(the decode error lands on that caller's completion channel and is what the
call returns), again leaving the client open. -/
theorem C1_theorem :
    (∀ (c : RPCClient) (fuel : Nat) (rest : List Frame),
      c.shutdown = false →
      decodeHeader c.strm = DecRes.fail rest →
      (RPCClient.listen (fuel + 1) c).shutdown = true ∧
      (RPCClient.listen (fuel + 1) c).connClosed = true ∧
      (RPCClient.listen (fuel + 1) c).dispatch = []) ∧
    (∀ (c : RPCClient) (hdr : requestHeader) (hr : Bool) (o : RPCOutcome),
      c.shutdown = true →
      (c.genericRPC hdr hr o).1 = clientClosed) ∧
    (∀ (c : RPCClient) (resp : responseHeader) (mh : monitorHandler)
       (rest : List Frame),
      mlookup c.dispatch resp.Seq = some (seqHandler.mon mh) →
      mh.init = true →
      mh.seq = resp.Seq →
      decodeLog c.strm = DecRes.fail rest →
      (c.respondSeq resp).1.shutdown = c.shutdown ∧
      (c.respondSeq resp).1.connClosed = c.connClosed ∧
      mlookup (c.respondSeq resp).1.dispatch resp.Seq = none) ∧
    (∀ (c : RPCClient) (resp : responseHeader) (sh : streamHandler)
       (rest : List Frame),
      mlookup c.dispatch resp.Seq = some (seqHandler.str sh) →
      sh.init = true →
      sh.seq = resp.Seq →
      decodeEvent c.strm = DecRes.fail rest →
      (c.respondSeq resp).1.shutdown = c.shutdown ∧
      (c.respondSeq resp).1.connClosed = c.connClosed ∧
      mlookup (c.respondSeq resp).1.dispatch resp.Seq = none) ∧
    (∀ (c : RPCClient) (resp : responseHeader) (hc : seqCallback)
       (rest : List Frame),
      mlookup c.dispatch resp.Seq = some (seqHandler.cb hc) →
      hc.hasResp = true →
      decodePayload c.strm = DecRes.fail rest →
      (c.respondSeq resp).1.shutdown = c.shutdown ∧
      (c.respondSeq resp).1.connClosed = c.connClosed ∧
      mlookup (c.respondSeq resp).1.dispatch resp.Seq =
        some (seqHandler.cb
          { hc with
            errCh := hc.errCh.send (some payloadDecodeFailMsg) })) ∧
    (∀ (c : RPCClient) (hdr : requestHeader) (hr : Bool),
      c.shutdown = false → c.sendErr = none →
      (c.genericRPC hdr hr
          (RPCOutcome.recv (some payloadDecodeFailMsg))).1 =
        some payloadDecodeFailMsg ∧
      (c.genericRPC hdr hr
          (RPCOutcome.recv (some payloadDecodeFailMsg))).2.1.shutdown =
        false ∧
      (c.genericRPC hdr hr
          (RPCOutcome.recv (some payloadDecodeFailMsg))).2.1.connClosed =
        c.connClosed) := by
  refine ⟨?_, ?_, ?_, ?_, ?_, ?_⟩
  · intro c fuel rest h1 h2
    simp [RPCClient.listen, h2, RPCClient.Close, h1, RPCClient.deregisterAll]
  · intro c hdr hr o h
    simp [RPCClient.genericRPC, RPCClient.handleSeq, RPCClient.send, h,
          clientClosed]
  · intro c resp mh rest h1 h2 h3 h4
    have hni : ¬ (mh.init = false) := by simp [h2]
    simp only [RPCClient.respondSeq, h1, seqHandler.Handle,
      monitorHandler.Handle, if_neg hni, h4, seqHandler.ownSeq,
      monitorCleanup_seq, h3]
    exact ⟨trivial, trivial, mlookup_merase_self _ _⟩
  · intro c resp sh rest h1 h2 h3 h4
    have hni : ¬ (sh.init = false) := by simp [h2]
    simp only [RPCClient.respondSeq, h1, seqHandler.Handle,
      streamHandler.Handle, if_neg hni, h4, seqHandler.ownSeq,
      streamCleanup_seq, h3]
    exact ⟨trivial, trivial, mlookup_merase_self _ _⟩
  · intro c resp hc rest h1 h2 h3
    have hh : seqHandler.Handle (seqHandler.cb hc) resp c.strm c.logs =
        (seqHandler.cb
          { hc with
            errCh := hc.errCh.send (some payloadDecodeFailMsg) },
         rest, c.logs, false) := by
      simp [seqHandler.Handle, seqCallback.Handle, h2, h3]
    simp only [RPCClient.respondSeq, h1, hh]
    exact ⟨trivial, trivial, mlookup_minsert_self _ _ _⟩
  · intro c hdr hr h1 h2
    obtain ⟨sq, st, se, dp, sd, sc, cc, lg⟩ := c
    cases h1; cases h2
    exact ⟨rfl, rfl, rfl⟩

/-- C1 witness: the amended theorem instantiated concretely — a header
decode failure shuts the whole client down, a one-shot RPC on the closed
client fails with the client-closed failure, a concrete monitor and a
concrete event-stream payload decode failure each leave the shutdown flag
untouched (the stream one also losing its registration), a concrete
one-shot payload decode failure lands the decode error on that caller's
completion channel, and the corresponding genericRPC call returns exactly
that decode error. -/
theorem C1_witness :
    ((RPCClient.listen 1 (newClient [Frame.garbage] none)).shutdown = true ∧
     (RPCClient.listen 1 (newClient [Frame.garbage] none)).connClosed = true ∧
     (RPCClient.listen 1 (newClient [Frame.garbage] none)).dispatch = []) ∧
    (({ newClient [] none with shutdown := true } : RPCClient).genericRPC
        { Command := membersCommand, Seq := 1 } true
        (RPCOutcome.recv none)).1 = clientClosed ∧
    (RPCClient.respondSeq
      { seq := 2, strm := [Frame.garbage], sendErr := none,
        dispatch := [(2, seqHandler.mon
          { closed := false, init := true,
            initCh := { cap := 1, buf := [], closed := false },
            logCh := { cap := 5, buf := [], closed := false },
            seq := 2 })],
        shutdown := false, shutdownChClosed := false, connClosed := false,
        logs := [] }
      { Seq := 2, Error := "" }).1.shutdown =
      ({ seq := 2, strm := [Frame.garbage], sendErr := none,
         dispatch := [(2, seqHandler.mon
           { closed := false, init := true,
             initCh := { cap := 1, buf := [], closed := false },
             logCh := { cap := 5, buf := [], closed := false },
             seq := 2 })],
         shutdown := false, shutdownChClosed := false, connClosed := false,
         logs := [] } : RPCClient).shutdown ∧
    ((RPCClient.respondSeq
      { seq := 3, strm := [Frame.garbage], sendErr := none,
        dispatch := [(3, seqHandler.str
          { closed := false, init := true,
            initCh := { cap := 1, buf := [], closed := false },
            eventCh := { cap := 5, buf := [], closed := false },
            seq := 3 })],
        shutdown := false, shutdownChClosed := false, connClosed := false,
        logs := [] }
      { Seq := 3, Error := "" }).1.shutdown = false ∧
     mlookup (RPCClient.respondSeq
      { seq := 3, strm := [Frame.garbage], sendErr := none,
        dispatch := [(3, seqHandler.str
          { closed := false, init := true,
            initCh := { cap := 1, buf := [], closed := false },
            eventCh := { cap := 5, buf := [], closed := false },
            seq := 3 })],
        shutdown := false, shutdownChClosed := false, connClosed := false,
        logs := [] }
      { Seq := 3, Error := "" }).1.dispatch 3 = none) ∧
    ((RPCClient.respondSeq
      { seq := 4, strm := [Frame.garbage], sendErr := none,
        dispatch := [(4, seqHandler.cb
          { hasResp := true,
            errCh := { cap := 1, buf := [], closed := false } })],
        shutdown := false, shutdownChClosed := false, connClosed := false,
        logs := [] }
      { Seq := 4, Error := "boom" }).1.shutdown = false ∧
     mlookup (RPCClient.respondSeq
      { seq := 4, strm := [Frame.garbage], sendErr := none,
        dispatch := [(4, seqHandler.cb
          { hasResp := true,
            errCh := { cap := 1, buf := [], closed := false } })],
        shutdown := false, shutdownChClosed := false, connClosed := false,
        logs := [] }
      { Seq := 4, Error := "boom" }).1.dispatch 4 =
      some (seqHandler.cb
        { hasResp := true,
          errCh := Chan.send { cap := 1, buf := [], closed := false }
            (some payloadDecodeFailMsg) })) ∧
    ((newClient [] none).genericRPC { Command := joinCommand, Seq := 1 }
        true (RPCOutcome.recv (some payloadDecodeFailMsg))).1 =
      some payloadDecodeFailMsg :=
  ⟨C1_theorem.1 (newClient [Frame.garbage] none) 0 [] rfl rfl,
   C1_theorem.2.1 _ _ true (RPCOutcome.recv none) rfl,
   (C1_theorem.2.2.1
     { seq := 2, strm := [Frame.garbage], sendErr := none,
       dispatch := [(2, seqHandler.mon
         { closed := false, init := true,
           initCh := { cap := 1, buf := [], closed := false },
           logCh := { cap := 5, buf := [], closed := false },
           seq := 2 })],
       shutdown := false, shutdownChClosed := false, connClosed := false,
       logs := [] }
     { Seq := 2, Error := "" }
     { closed := false, init := true,
       initCh := { cap := 1, buf := [], closed := false },
       logCh := { cap := 5, buf := [], closed := false }, seq := 2 }
     [] rfl rfl rfl rfl).1,
   ⟨((C1_theorem.2.2.2.1
       { seq := 3, strm := [Frame.garbage], sendErr := none,
         dispatch := [(3, seqHandler.str
           { closed := false, init := true,
             initCh := { cap := 1, buf := [], closed := false },
             eventCh := { cap := 5, buf := [], closed := false },
             seq := 3 })],
         shutdown := false, shutdownChClosed := false, connClosed := false,
         logs := [] }
       { Seq := 3, Error := "" }
       { closed := false, init := true,
         initCh := { cap := 1, buf := [], closed := false },
         eventCh := { cap := 5, buf := [], closed := false }, seq := 3 }
       [] rfl rfl rfl rfl).1 : _),
    (C1_theorem.2.2.2.1
       { seq := 3, strm := [Frame.garbage], sendErr := none,
         dispatch := [(3, seqHandler.str
           { closed := false, init := true,
             initCh := { cap := 1, buf := [], closed := false },
             eventCh := { cap := 5, buf := [], closed := false },
             seq := 3 })],
         shutdown := false, shutdownChClosed := false, connClosed := false,
         logs := [] }
       { Seq := 3, Error := "" }
       { closed := false, init := true,
         initCh := { cap := 1, buf := [], closed := false },
         eventCh := { cap := 5, buf := [], closed := false }, seq := 3 }
       [] rfl rfl rfl rfl).2.2⟩,
   ⟨((C1_theorem.2.2.2.2.1
       { seq := 4, strm := [Frame.garbage], sendErr := none,
         dispatch := [(4, seqHandler.cb
           { hasResp := true,
             errCh := { cap := 1, buf := [], closed := false } })],
         shutdown := false, shutdownChClosed := false, connClosed := false,
         logs := [] }
       { Seq := 4, Error := "boom" }
       { hasResp := true,
         errCh := { cap := 1, buf := [], closed := false } }
       [] rfl rfl rfl).1 : _),
    (C1_theorem.2.2.2.2.1
       { seq := 4, strm := [Frame.garbage], sendErr := none,
         dispatch := [(4, seqHandler.cb
           { hasResp := true,
             errCh := { cap := 1, buf := [], closed := false } })],
         shutdown := false, shutdownChClosed := false, connClosed := false,
         logs := [] }
       { Seq := 4, Error := "boom" }
       { hasResp := true,
         errCh := { cap := 1, buf := [], closed := false } }
       [] rfl rfl rfl).2.2⟩,
   (C1_theorem.2.2.2.2.2 (newClient [] none)
     { Command := joinCommand, Seq := 1 } true rfl rfl).1⟩

/-- C2 counterexample: the claim that every handler invocation happens
outside the dispatch lock is false — deregisterAll, invoked at shutdown,
runs the remaining handler's Cleanup between acquiring and releasing the
dispatch lock, as its emitted trace shows on a concrete one-entry table. -/
theorem C2_counterexample :
    invokesUnderLock (RPCClient.deregisterAll
      { seq := 0, strm := [], sendErr := none,
        dispatch := [(7, seqHandler.cb
          { hasResp := false,
            errCh := { cap := 1, buf := [], closed := false } })],
        shutdown := false, shutdownChClosed := false, connClosed := false,
        logs := [] }).2 = true := by
  decide

/-- C2 (amended): register, dispatch lookup and lookup-and-remove hold the
dispatch mutex only for the O(1) map operation and invoke Handle and
Cleanup outside the lock; the remove-all performed at shutdown, however,
invokes each remaining handler's Cleanup while still holding the dispatch
lock. -/
theorem C2_theorem :
    (∀ (c : RPCClient) (s : Nat) (h : seqHandler),
      invokesUnderLock (c.handleSeq s h).2 = false) ∧
    (∀ (c : RPCClient) (resp : responseHeader),
      invokesUnderLock (c.respondSeq resp).2 = false) ∧
    (∀ (c : RPCClient) (s : Nat),
      invokesUnderLock (c.deregisterHandler s).2 = false) ∧
    (∀ c : RPCClient, c.dispatch ≠ [] →
      invokesUnderLock (c.deregisterAll).2 = true) := by
  refine ⟨?_, ?_, ?_, ?_⟩
  · intro c s h
    rfl
  · intro c resp
    cases hlk : mlookup c.dispatch resp.Seq <;>
      simp [RPCClient.respondSeq, hlk, invokesUnderLock, underLock]
  · intro c s
    cases hlk : mlookup c.dispatch s <;>
      simp [RPCClient.deregisterHandler, hlk, invokesUnderLock, underLock]
  · intro c hne
    cases hd : c.dispatch with
    | nil => exact absurd hd hne
    | cons p tl =>
        simp [RPCClient.deregisterAll, hd, invokesUnderLock, underLock]

/-- C2 witness: the amended theorem instantiated concretely — a register, a
dispatch of an unrouted seq and a deregister invoke nothing under the lock,
while remove-all on a one-entry table runs a Cleanup under the lock. -/
theorem C2_witness :
    invokesUnderLock ((newClient [] none).handleSeq 1 (seqHandler.cb
      { hasResp := false,
        errCh := { cap := 1, buf := [], closed := false } })).2 = false ∧
    invokesUnderLock ((newClient [] none).respondSeq
      { Seq := 9, Error := "" }).2 = false ∧
    invokesUnderLock ((newClient [] none).deregisterHandler 9).2 = false ∧
    invokesUnderLock (RPCClient.deregisterAll
      { seq := 3, strm := [], sendErr := none,
        dispatch := [(9, seqHandler.mon
          { closed := false, init := false,
            initCh := { cap := 1, buf := [], closed := false },
            logCh := { cap := 2, buf := [], closed := false },
            seq := 9 })],
        shutdown := false, shutdownChClosed := false, connClosed := false,
        logs := [] }).2 = true :=
  ⟨C2_theorem.1 (newClient [] none) 1 _,
   C2_theorem.2.1 (newClient [] none) { Seq := 9, Error := "" },
   C2_theorem.2.2.1 (newClient [] none) 9,
   C2_theorem.2.2.2 _ (by decide)⟩

theorem sbr_mapIns_self (s : Nat) (l : List Ev) :
    sendBeforeReg s (Ev.mapIns s :: l) = false := by
  show (if s = s then false else sendBeforeReg s l) = false
  simp

theorem sbr_lockAcq (s : Nat) (l : List Ev) :
    sendBeforeReg s (Ev.lockAcq :: l) = sendBeforeReg s l := rfl

theorem sbr_prefix3 (s h : Nat) (l : List Ev) :
    sendBeforeReg s ([Ev.lockAcq, Ev.mapDel h, Ev.lockRel] ++ l) =
      sendBeforeReg s l := rfl

theorem sbr_prefix4 (s h : Nat) (l : List Ev) :
    sendBeforeReg s
        ([Ev.lockAcq, Ev.mapDel h, Ev.lockRel, Ev.cleanupEv h] ++ l) =
      sendBeforeReg s l := rfl

theorem sendBeforeReg_genericRPC (c : RPCClient) (hdr : requestHeader)
    (hr : Bool) (o : RPCOutcome) :
    sendBeforeReg hdr.Seq (c.genericRPC hdr hr o).2.2 = false := by
  obtain ⟨l, hl⟩ : ∃ l, (c.genericRPC hdr hr o).2.2 =
      Ev.lockAcq :: Ev.mapIns hdr.Seq :: l := by
    simp only [RPCClient.genericRPC, RPCClient.handleSeq]
    split <;> exact ⟨_, rfl⟩
  rw [hl, sbr_lockAcq, sbr_mapIns_self]

theorem sbd_prefix3 (h : Nat) (l : List Ev) :
    sendBeforeDel h ([Ev.lockAcq, Ev.mapDel h, Ev.lockRel] ++ l) = false := by
  show (if h = h then false else sendBeforeDel h (Ev.lockRel :: l)) = false
  simp

theorem sbd_prefix4 (h : Nat) (l : List Ev) :
    sendBeforeDel h
        ([Ev.lockAcq, Ev.mapDel h, Ev.lockRel, Ev.cleanupEv h] ++ l) =
      false := by
  show (if h = h then false
        else sendBeforeDel h (Ev.lockRel :: Ev.cleanupEv h :: l)) = false
  simp

theorem genericRPC_shutdown (c : RPCClient) (hdr : requestHeader)
    (hr : Bool) (o : RPCOutcome) :
    (c.genericRPC hdr hr o).2.1.shutdown = c.shutdown := by
  obtain ⟨sq, st, se, dp, sd, sc, cc, lg⟩ := c
  cases sd <;> cases se <;> cases o <;> rfl

/-- C3: every one-shot RPC registers its handler under the request's seq
before the request is sent (genericRPC in general, and each of ForceLeave,
Join, Members, MembersFiltered, UserEvent, Leave, UpdateTags, handshake and
the stop command sent by Stop, whose freshly allocated seq is
(seq + 1) mod 2^64); when the shutdown signal resolves the blocking select
the call returns the client-closed failure; the handler is deregistered on
every exit path; and deregistering an already-removed seq is a no-op that
invokes no Cleanup. -/
theorem C3_theorem :
    (∀ (c : RPCClient) (hdr : requestHeader) (hr : Bool) (o : RPCOutcome),
      sendBeforeReg hdr.Seq (c.genericRPC hdr hr o).2.2 = false) ∧
    (∀ (c : RPCClient) (node : String) (o : RPCOutcome),
      sendBeforeReg ((c.seq + 1) % U64) (c.ForceLeave node o).2.2 = false) ∧
    (∀ (c : RPCClient) (addrs : List String) (replay : Bool)
       (o : RPCOutcome),
      sendBeforeReg ((c.seq + 1) % U64)
        (c.Join addrs replay o).2.2 = false) ∧
    (∀ (c : RPCClient) (o : RPCOutcome),
      sendBeforeReg ((c.seq + 1) % U64) (c.Members o).2.2 = false) ∧
    (∀ (c : RPCClient) (tags : List (String × String)) (status : String)
       (o : RPCOutcome),
      sendBeforeReg ((c.seq + 1) % U64)
        (c.MembersFiltered tags status o).2.2 = false) ∧
    (∀ (c : RPCClient) (name : String) (payload : List Nat)
       (coalesce : Bool) (o : RPCOutcome),
      sendBeforeReg ((c.seq + 1) % U64)
        (c.UserEvent name payload coalesce o).2.2 = false) ∧
    (∀ (c : RPCClient) (o : RPCOutcome),
      sendBeforeReg ((c.seq + 1) % U64) (c.Leave o).2.2 = false) ∧
    (∀ (c : RPCClient) (tags : List (String × String))
       (delTags : List String) (o : RPCOutcome),
      sendBeforeReg ((c.seq + 1) % U64)
        (c.UpdateTags tags delTags o).2.2 = false) ∧
    (∀ (c : RPCClient) (o : RPCOutcome),
      sendBeforeReg ((c.seq + 1) % U64) (c.handshake o).2.2 = false) ∧
    (∀ (c : RPCClient) (handle : Nat) (o : RPCOutcome),
      sendBeforeReg ((c.seq + 1) % U64) (c.Stop handle o).2.2 = false) ∧
    (∀ (c : RPCClient) (hdr : requestHeader) (hr : Bool),
      c.shutdown = false → c.sendErr = none →
      (c.genericRPC hdr hr RPCOutcome.shutdownFired).1 = clientClosed) ∧
    (∀ (c : RPCClient) (hdr : requestHeader) (hr : Bool) (o : RPCOutcome),
      mlookup (c.genericRPC hdr hr o).2.1.dispatch hdr.Seq = none) ∧
    (∀ (c : RPCClient) (s : Nat),
      mlookup c.dispatch s = none →
      (c.deregisterHandler s).1 = c ∧
      (c.deregisterHandler s).2 = [Ev.lockAcq, Ev.mapDel s, Ev.lockRel]) := by
  refine ⟨sendBeforeReg_genericRPC, ?_, ?_, ?_, ?_, ?_, ?_, ?_, ?_, ?_,
          ?_, ?_, ?_⟩
  · intro c node o
    exact sendBeforeReg_genericRPC (c.getSeq).2
      { Command := forceLeaveCommand, Seq := (c.getSeq).1 } false o
  · intro c addrs replay o
    exact sendBeforeReg_genericRPC (c.getSeq).2
      { Command := joinCommand, Seq := (c.getSeq).1 } true o
  · intro c o
    exact sendBeforeReg_genericRPC (c.getSeq).2
      { Command := membersCommand, Seq := (c.getSeq).1 } true o
  · intro c tags status o
    exact sendBeforeReg_genericRPC (c.getSeq).2
      { Command := membersFilteredCommand, Seq := (c.getSeq).1 } true o
  · intro c name payload coalesce o
    exact sendBeforeReg_genericRPC (c.getSeq).2
      { Command := eventCommand, Seq := (c.getSeq).1 } false o
  · intro c o
    exact sendBeforeReg_genericRPC (c.getSeq).2
      { Command := leaveCommand, Seq := (c.getSeq).1 } false o
  · intro c tags delTags o
    exact sendBeforeReg_genericRPC (c.getSeq).2
      { Command := tagsCommand, Seq := (c.getSeq).1 } false o
  · intro c o
    exact sendBeforeReg_genericRPC (c.getSeq).2
      { Command := handshakeCommand, Seq := (c.getSeq).1 } false o
  · intro c handle o
    cases hlk : mlookup c.dispatch handle <;>
      simp only [RPCClient.Stop, RPCClient.deregisterHandler, hlk,
        RPCClient.getSeq, sbr_prefix3, sbr_prefix4] <;>
      exact sendBeforeReg_genericRPC _
        { Command := stopCommand, Seq := (c.seq + 1) % U64 } false o
  · intro c hdr hr h1 h2
    obtain ⟨sq, st, se, dp, sd, sc, cc, lg⟩ := c
    cases h1; cases h2; rfl
  · intro c hdr hr o
    obtain ⟨sq, st, se, dp, sd, sc, cc, lg⟩ := c
    cases sd <;> cases se <;> cases o <;>
      exact mlookup_merase_self _ _
  · intro c s h
    constructor
    · show ({ c with dispatch := merase c.dispatch s } : RPCClient) = c
      rw [merase_of_mlookup_none c.dispatch s h]
    · simp [RPCClient.deregisterHandler, h]

/-- C3 witness: the theorem instantiated at a concrete fresh client — the
registration-before-send traces, the client-closed result on shutdown, and
the no-op deregistration of an absent seq. -/
theorem C3_witness :
    sendBeforeReg ((0 + 1) % U64)
      ((newClient [] none).Members (RPCOutcome.recv none)).2.2 = false ∧
    sendBeforeReg ((0 + 1) % U64)
      ((newClient [] none).Stop 0 (RPCOutcome.recv none)).2.2 = false ∧
    ((newClient [] none).genericRPC { Command := leaveCommand, Seq := 1 }
      false RPCOutcome.shutdownFired).1 = clientClosed ∧
    ((newClient [] none).deregisterHandler 5).1 = newClient [] none ∧
    ((newClient [] none).deregisterHandler 5).2 =
      [Ev.lockAcq, Ev.mapDel 5, Ev.lockRel] :=
  ⟨C3_theorem.2.2.2.1 (newClient [] none) (RPCOutcome.recv none),
   C3_theorem.2.2.2.2.2.2.2.2.2.1 (newClient [] none) 0
     (RPCOutcome.recv none),
   C3_theorem.2.2.2.2.2.2.2.2.2.2.1 (newClient [] none)
     { Command := leaveCommand, Seq := 1 } false rfl rfl,
   (C3_theorem.2.2.2.2.2.2.2.2.2.2.2.2 (newClient [] none) 5 rfl).1,
   (C3_theorem.2.2.2.2.2.2.2.2.2.2.2.2 (newClient [] none) 5 rfl).2⟩

/-- C4: Stop removes the handler from the Dispatch Table before any send
occurs in its trace; a frame whose seq has no registered handler is
discarded without invoking any handler and without changing the client;
after Stop the handle is no longer registered (the stop RPC's fresh seq
being distinct from the handle); hence any late frame for that seq leaves
the post-Stop client unchanged. -/
theorem C4_theorem :
    (∀ (c : RPCClient) (handle : Nat) (o : RPCOutcome),
      sendBeforeDel handle (c.Stop handle o).2.2 = false) ∧
    (∀ (c : RPCClient) (resp : responseHeader),
      mlookup c.dispatch resp.Seq = none →
      c.respondSeq resp =
        (c, [Ev.lockAcq, Ev.mapGet resp.Seq, Ev.lockRel])) ∧
    (∀ (c : RPCClient) (handle : Nat) (o : RPCOutcome),
      (c.seq + 1) % U64 ≠ handle →
      mlookup (c.Stop handle o).2.1.dispatch handle = none) ∧
    (∀ (c : RPCClient) (handle : Nat) (o : RPCOutcome)
       (resp : responseHeader),
      (c.seq + 1) % U64 ≠ handle → resp.Seq = handle →
      (c.Stop handle o).2.1.respondSeq resp =
        ((c.Stop handle o).2.1,
         [Ev.lockAcq, Ev.mapGet resp.Seq, Ev.lockRel])) := by
  have hb : ∀ (c : RPCClient) (resp : responseHeader),
      mlookup c.dispatch resp.Seq = none →
      c.respondSeq resp =
        (c, [Ev.lockAcq, Ev.mapGet resp.Seq, Ev.lockRel]) := by
    intro c resp h
    simp [RPCClient.respondSeq, h]
  have hc : ∀ (c : RPCClient) (handle : Nat) (o : RPCOutcome),
      (c.seq + 1) % U64 ≠ handle →
      mlookup (c.Stop handle o).2.1.dispatch handle = none := by
    intro c handle o hne
    have hd : (c.Stop handle o).2.1.dispatch =
        merase (minsert (merase c.dispatch handle) ((c.seq + 1) % U64)
          (seqHandler.cb
            { hasResp := false,
              errCh := { cap := 1, buf := [], closed := false } }))
          ((c.seq + 1) % U64) := by
      obtain ⟨sq, st, se, dp, sd, sc, cc, lg⟩ := c
      cases sd <;> cases se <;> cases o <;> rfl
    have hne' : handle ≠ (c.seq + 1) % U64 := fun hh => hne hh.symm
    rw [hd, mlookup_merase_ne _ _ _ hne', mlookup_minsert_ne _ _ _ _ hne',
        mlookup_merase_self]
  refine ⟨?_, hb, hc, ?_⟩
  · intro c handle o
    cases hlk : mlookup c.dispatch handle <;>
      simp only [RPCClient.Stop, RPCClient.deregisterHandler, hlk,
        sbd_prefix3, sbd_prefix4]
  · intro c handle o resp h1 h2
    have hnone := hc c handle o h1
    exact hb _ resp (by rw [h2]; exact hnone)

/-- C4 witness: a concrete Stop of a live monitor subscription — the
deregistration precedes any send in the trace, the handle is gone
afterwards, and a late frame for that seq is discarded unchanged. -/
theorem C4_witness :
    sendBeforeDel 2
      (RPCClient.Stop
        { seq := 2, strm := [], sendErr := none,
          dispatch := [(2, seqHandler.mon
            { closed := false, init := true,
              initCh := { cap := 1, buf := [], closed := false },
              logCh := { cap := 5, buf := [], closed := false },
              seq := 2 })],
          shutdown := false, shutdownChClosed := false, connClosed := false,
          logs := [] } 2 (RPCOutcome.recv none)).2.2 = false ∧
    mlookup
      (RPCClient.Stop
        { seq := 2, strm := [], sendErr := none,
          dispatch := [(2, seqHandler.mon
            { closed := false, init := true,
              initCh := { cap := 1, buf := [], closed := false },
              logCh := { cap := 5, buf := [], closed := false },
              seq := 2 })],
          shutdown := false, shutdownChClosed := false, connClosed := false,
          logs := [] } 2 (RPCOutcome.recv none)).2.1.dispatch 2 = none ∧
    (RPCClient.Stop
        { seq := 2, strm := [], sendErr := none,
          dispatch := [(2, seqHandler.mon
            { closed := false, init := true,
              initCh := { cap := 1, buf := [], closed := false },
              logCh := { cap := 5, buf := [], closed := false },
              seq := 2 })],
          shutdown := false, shutdownChClosed := false, connClosed := false,
          logs := [] } 2 (RPCOutcome.recv none)).2.1.respondSeq
        { Seq := 2, Error := "" } =
      ((RPCClient.Stop
        { seq := 2, strm := [], sendErr := none,
          dispatch := [(2, seqHandler.mon
            { closed := false, init := true,
              initCh := { cap := 1, buf := [], closed := false },
              logCh := { cap := 5, buf := [], closed := false },
              seq := 2 })],
          shutdown := false, shutdownChClosed := false, connClosed := false,
          logs := [] } 2 (RPCOutcome.recv none)).2.1,
       [Ev.lockAcq, Ev.mapGet 2, Ev.lockRel]) :=
  ⟨C4_theorem.1 _ 2 (RPCOutcome.recv none),
   C4_theorem.2.2.1 _ 2 (RPCOutcome.recv none) (by decide),
   C4_theorem.2.2.2 _ 2 (RPCOutcome.recv none) { Seq := 2, Error := "" }
     (by decide) rfl⟩

/-- C8: when the construction-time handshake fails, NewRPCClient returns no
client together with the handshake's error, and the underlying client state
is fully shut down: the connection is closed, the shutdown flag is set and
the dispatch table is empty — callers never observe a half-initialized
client and the socket is not leaked. -/
theorem C8_theorem :
    ∀ (strm : List Frame) (se : GoErr) (o : RPCOutcome) (e : String),
      ((newClient strm se).handshake o).1 = some e →
      (NewRPCClient strm se o).1 = none ∧
      (NewRPCClient strm se o).2.1 = some e ∧
      (NewRPCClient strm se o).2.2.connClosed = true ∧
      (NewRPCClient strm se o).2.2.shutdown = true ∧
      (NewRPCClient strm se o).2.2.dispatch = [] := by
  intro strm se o e h
  have hsd : ((newClient strm se).handshake o).2.1.shutdown = false :=
    genericRPC_shutdown ((newClient strm se).getSeq).2
      { Command := handshakeCommand, Seq := ((newClient strm se).getSeq).1 }
      false o
  simp only [NewRPCClient, h]
  refine ⟨trivial, trivial, ?_, ?_, ?_⟩ <;>
    simp [RPCClient.Close, hsd, RPCClient.deregisterAll]

/-- C8 witness: a concrete failed handshake (the agent reports an
unsupported version): construction yields no client, the error verbatim,
and a closed connection. -/
theorem C8_witness :
    (NewRPCClient [] none
      (RPCOutcome.recv (some "Unsupported version"))).1 = none ∧
    (NewRPCClient [] none
      (RPCOutcome.recv (some "Unsupported version"))).2.1 =
      some "Unsupported version" ∧
    (NewRPCClient [] none
      (RPCOutcome.recv (some "Unsupported version"))).2.2.connClosed =
      true ∧
    (NewRPCClient [] none
      (RPCOutcome.recv (some "Unsupported version"))).2.2.shutdown = true ∧
    (NewRPCClient [] none
      (RPCOutcome.recv (some "Unsupported version"))).2.2.dispatch = [] :=
  C8_theorem [] none (RPCOutcome.recv (some "Unsupported version"))
    "Unsupported version" rfl

/-- C10: the sequence allocator starts at 1 (the counter is created at 0
and each allocation pre-increments modulo 2^64), so before the counter
wraps no allocated seq is 0; Monitor and Stream return handle 0 together
with an error both when the subscribe send fails and when shutdown beats
the init signal, while a successful subscription returns the allocated
(nonzero) seq as its handle; and deregistering seq 0 — all Stop(0) does to
the table — removes nothing when 0 was never registered. -/
theorem C10_theorem :
    (∀ (strm : List Frame) (se : GoErr),
      ((newClient strm se).getSeq).1 = 1) ∧
    (∀ c : RPCClient, c.seq + 1 < U64 →
      (c.getSeq).1 = c.seq + 1 ∧ (c.getSeq).1 ≠ 0) ∧
    (∀ (c : RPCClient) (level : String) (ch : Chan String) (o : RPCOutcome)
       (e : String),
      c.shutdown = false → c.sendErr = some e →
      (c.Monitor level ch o).1 = (0, some e)) ∧
    (∀ (c : RPCClient) (level : String) (ch : Chan String),
      c.shutdown = false → c.sendErr = none →
      (c.Monitor level ch RPCOutcome.shutdownFired).1 =
        (0, clientClosed)) ∧
    (∀ (c : RPCClient) (filter : String)
       (ch : Chan (List (String × String))) (o : RPCOutcome) (e : String),
      c.shutdown = false → c.sendErr = some e →
      (c.Stream filter ch o).1 = (0, some e)) ∧
    (∀ (c : RPCClient) (filter : String)
       (ch : Chan (List (String × String))),
      c.shutdown = false → c.sendErr = none →
      (c.Stream filter ch RPCOutcome.shutdownFired).1 =
        (0, clientClosed)) ∧
    (∀ (c : RPCClient) (level : String) (ch : Chan String) (e : GoErr),
      c.shutdown = false → c.sendErr = none →
      (c.Monitor level ch (RPCOutcome.recv e)).1 =
        ((c.seq + 1) % U64, e)) ∧
    (∀ (c : RPCClient) (filter : String)
       (ch : Chan (List (String × String))) (e : GoErr),
      c.shutdown = false → c.sendErr = none →
      (c.Stream filter ch (RPCOutcome.recv e)).1 =
        ((c.seq + 1) % U64, e)) ∧
    (∀ c : RPCClient, mlookup c.dispatch 0 = none →
      (c.deregisterHandler 0).1 = c ∧
      (c.deregisterHandler 0).2 = [Ev.lockAcq, Ev.mapDel 0, Ev.lockRel]) := by
  refine ⟨?_, ?_, ?_, ?_, ?_, ?_, ?_, ?_, ?_⟩
  · intro strm se
    exact Nat.mod_eq_of_lt (by norm_num [newClient, U64])
  · intro c h
    have h1 : (c.getSeq).1 = c.seq + 1 := Nat.mod_eq_of_lt h
    exact ⟨h1, by rw [h1]; omega⟩
  · intro c level ch o e h1 h2
    obtain ⟨sq, st, se, dp, sd, sc, cc, lg⟩ := c
    cases h1; cases h2; rfl
  · intro c level ch h1 h2
    obtain ⟨sq, st, se, dp, sd, sc, cc, lg⟩ := c
    cases h1; cases h2; rfl
  · intro c filter ch o e h1 h2
    obtain ⟨sq, st, se, dp, sd, sc, cc, lg⟩ := c
    cases h1; cases h2; rfl
  · intro c filter ch h1 h2
    obtain ⟨sq, st, se, dp, sd, sc, cc, lg⟩ := c
    cases h1; cases h2; rfl
  · intro c level ch e h1 h2
    obtain ⟨sq, st, se, dp, sd, sc, cc, lg⟩ := c
    cases h1; cases h2; rfl
  · intro c filter ch e h1 h2
    obtain ⟨sq, st, se, dp, sd, sc, cc, lg⟩ := c
    cases h1; cases h2; rfl
  · intro c h
    constructor
    · show ({ c with dispatch := merase c.dispatch 0 } : RPCClient) = c
      rw [merase_of_mlookup_none c.dispatch 0 h]
    · simp [RPCClient.deregisterHandler, h]

/-- C10 witness: concrete allocations and subscriptions — the first seq of
a fresh client is 1, a Monitor whose send fails and a Stream cut off by
shutdown both return handle 0 with the error, a successful Stream returns
the nonzero allocated handle, and deregistering the never-allocated seq 0
on a fresh client changes nothing. -/
theorem C10_witness :
    ((newClient [] none).getSeq).1 = 1 ∧
    ((newClient [] none).getSeq).1 = 0 + 1 ∧
    ((newClient [] none).getSeq).1 ≠ 0 ∧
    (RPCClient.Monitor { newClient [] none with sendErr := some "broken pipe" }
      "DEBUG" { cap := 2, buf := [], closed := false }
      (RPCOutcome.recv none)).1 = (0, some "broken pipe") ∧
    ((newClient [] none).Stream "member-join"
      { cap := 2, buf := [], closed := false }
      RPCOutcome.shutdownFired).1 = (0, clientClosed) ∧
    ((newClient [] none).Stream "member-join"
      { cap := 2, buf := [], closed := false }
      (RPCOutcome.recv none)).1 = ((0 + 1) % U64, none) ∧
    ((newClient [] none).deregisterHandler 0).1 = newClient [] none :=
  ⟨C10_theorem.1 [] none,
   (C10_theorem.2.1 (newClient [] none) (by norm_num [newClient, U64])).1,
   (C10_theorem.2.1 (newClient [] none) (by norm_num [newClient, U64])).2,
   C10_theorem.2.2.1 _ "DEBUG" _ (RPCOutcome.recv none) "broken pipe"
     rfl rfl,
   C10_theorem.2.2.2.2.2.1 (newClient [] none) "member-join" _ rfl rfl,
   C10_theorem.2.2.2.2.2.2.2.1 (newClient [] none) "member-join" _ none
     rfl rfl,
   (C10_theorem.2.2.2.2.2.2.2.2 (newClient [] none) rfl).1⟩

end Serf
